import Mathlib

/-!
Shallow embedding of the SQL query in `src/pandas_query.py` of the
`gc-lbs` repository.  The query reads one source table
(`job-accessibility.lbs_latam.CO_HW`) with columns
`uid, year, cluster_latitude, cluster_longitude, location_type`,
builds two CTEs (`home_locations`, `work_locations`) by
`SELECT DISTINCT` with a `location_type` filter, left-joins them on
`(uid, year)`, filters on non-null `uid`, `home_latitude` and
`work_latitude`, orders by `(uid, year)` and limits to 1000 rows.

SQL values are nullable, so every column is modelled as an `Option`.
Numeric columns (`uid`, `year`, and the coordinates) are modelled as
`Option Int`: the query only ever compares them for equality and
order, never does arithmetic on them, so the carrier is opaque.
`location_type` is a nullable string.  Tables are lists of rows; the
three-valued SQL equality used in the `ON` and `WHERE` clauses is
made explicit (`NULL = x` is not true).
-/

namespace GcLbs

/-- A row of the source table `CO_HW`.  Every SQL column is nullable. -/
structure SourceRow where
  uid : Option Int
  year : Option Int
  cluster_latitude : Option Int
  cluster_longitude : Option Int
  location_type : Option String
deriving DecidableEq, Repr

/-- A row of the CTE `home_locations`:
`SELECT DISTINCT uid, year, cluster_latitude AS home_latitude,
cluster_longitude AS home_longitude`. -/
structure HomeRow where
  uid : Option Int
  year : Option Int
  home_latitude : Option Int
  home_longitude : Option Int
deriving DecidableEq, Repr

/-- A row of the CTE `work_locations`:
`SELECT DISTINCT uid, year, cluster_latitude AS work_latitude,
cluster_longitude AS work_longitude`. -/
structure WorkRow where
  uid : Option Int
  year : Option Int
  work_latitude : Option Int
  work_longitude : Option Int
deriving DecidableEq, Repr

/-- A row of the final `SELECT`, columns in the order they are listed:
`h.uid, h.home_latitude, h.home_longitude, w.work_latitude,
w.work_longitude, h.year`. -/
structure OutRow where
  uid : Option Int
  home_latitude : Option Int
  home_longitude : Option Int
  work_latitude : Option Int
  work_longitude : Option Int
  year : Option Int
deriving DecidableEq, Repr

/-- SQL equality of two nullable values, as used in `ON` / `WHERE`:
`NULL = x` is `NULL`, which is not satisfied, so only two non-null
equal values compare true. -/
def sqlEq (a b : Option Int) : Bool :=
  match a, b with
  | some x, some y => x = y
  | _, _ => false

/-- The projection of the `home_locations` CTE:
`uid, year, cluster_latitude AS home_latitude, cluster_longitude AS
home_longitude`. -/
def homeProj (r : SourceRow) : HomeRow :=
  ⟨r.uid, r.year, r.cluster_latitude, r.cluster_longitude⟩

/-- The projection of the `work_locations` CTE:
`uid, year, cluster_latitude AS work_latitude, cluster_longitude AS
work_longitude`. -/
def workProj (r : SourceRow) : WorkRow :=
  ⟨r.uid, r.year, r.cluster_latitude, r.cluster_longitude⟩

/-- The CTE `home_locations`: rows of the source with
`location_type = 'H'`, projected and de-duplicated (`SELECT DISTINCT`). -/
def home_locations (t : List SourceRow) : List HomeRow :=
  ((t.filter (fun r => r.location_type = some "H")).map homeProj).dedup

/-- The CTE `work_locations`: rows of the source with
`location_type = 'W'`, projected and de-duplicated (`SELECT DISTINCT`). -/
def work_locations (t : List SourceRow) : List WorkRow :=
  ((t.filter (fun r => r.location_type = some "W")).map workProj).dedup

/-- The `ON` clause of the join: `h.uid = w.uid AND h.year = w.year`,
under SQL null semantics. -/
def joinCond (h : HomeRow) (w : WorkRow) : Bool :=
  sqlEq h.uid w.uid && sqlEq h.year w.year

/-- The `SELECT` list applied to one matched pair of the join. -/
def combine (h : HomeRow) (w : WorkRow) : OutRow :=
  ⟨h.uid, h.home_latitude, h.home_longitude, w.work_latitude, w.work_longitude, h.year⟩

/-- The `SELECT` list applied to an unmatched left row: the work-side
columns are null-padded. -/
def padLeft (h : HomeRow) : OutRow :=
  ⟨h.uid, h.home_latitude, h.home_longitude, none, none, h.year⟩

/-- `FROM home_locations h LEFT JOIN work_locations w ON h.uid = w.uid
AND h.year = w.year`: every home row is kept; a home row with no
matching work row yields one null-padded output row. -/
def leftJoin (hs : List HomeRow) (ws : List WorkRow) : List OutRow :=
  hs.flatMap (fun h =>
    if (ws.filter (fun w => joinCond h w)).isEmpty then [padLeft h]
    else (ws.filter (fun w => joinCond h w)).map (fun w => combine h w))

/-- The `WHERE` clause: `h.uid IS NOT NULL AND h.home_latitude IS NOT
NULL AND w.work_latitude IS NOT NULL`. -/
def keepRow (r : OutRow) : Bool :=
  r.uid.isSome && r.home_latitude.isSome && r.work_latitude.isSome

/-- Strict comparison of nullable values for `ORDER BY ... ASC`:
in BigQuery standard SQL, nulls sort first ascending. -/
def optLt (a b : Option Int) : Bool :=
  match a, b with
  | none, some _ => true
  | some x, some y => x < y
  | _, _ => false

/-- The `ORDER BY h.uid, h.year` sort key, as a strict lexicographic
comparison on output rows. -/
def keyLt (a b : OutRow) : Bool :=
  optLt a.uid b.uid || (a.uid = b.uid && optLt a.year b.year)

/-- Non-strict version of the `(uid, year)` ordering, used as the
comparison handed to the sort. -/
def rowLe (a b : OutRow) : Bool :=
  !(keyLt b a)

/-- The `(uid, year)` ordering as a decidable relation, for the sort. -/
def rowLeP (a b : OutRow) : Prop :=
  rowLe a b = true

instance : DecidableRel rowLeP :=
  fun a b => inferInstanceAs (Decidable (rowLe a b = true))

/-- The joined-and-filtered relation, before ordering and limit. -/
def surviving (t : List SourceRow) : List OutRow :=
  (leftJoin (home_locations t) (work_locations t)).filter keepRow

/-- The surviving rows sorted by `(uid, year)` ascending
(`ORDER BY h.uid, h.year`).  SQL specifies only the ordering, not the
algorithm; a stable insertion sort realises it. -/
def sortedRows (t : List SourceRow) : List OutRow :=
  (surviving t).insertionSort rowLeP

/-- The whole query: CTEs, left join, `WHERE` filter, `ORDER BY h.uid,
h.year`, `LIMIT 1000`. -/
def query (t : List SourceRow) : List OutRow :=
  (sortedRows t).take 1000

/-- The column names of the final `SELECT`, in the order listed. -/
def outputColumns : List String :=
  ["uid", "home_latitude", "home_longitude", "work_latitude", "work_longitude", "year"]

/-- An output row as an ordered association list of named cells,
following the order of the `SELECT` list. -/
def OutRow.toCells (r : OutRow) : List (String × Option Int) :=
  [("uid", r.uid), ("home_latitude", r.home_latitude),
   ("home_longitude", r.home_longitude), ("work_latitude", r.work_latitude),
   ("work_longitude", r.work_longitude), ("year", r.year)]

/-- The alternative the spec compares against: the inner join of the
two CTEs on `(uid, year)` — only matched pairs, no null padding. -/
def innerJoin (hs : List HomeRow) (ws : List WorkRow) : List OutRow :=
  hs.flatMap (fun h => (ws.filter (fun w => joinCond h w)).map (fun w => combine h w))

/-- The inner join followed by the same `WHERE` filter. -/
def survivingInner (t : List SourceRow) : List OutRow :=
  (innerJoin (home_locations t) (work_locations t)).filter keepRow

/-- The `WHERE` clause with the `h.uid IS NOT NULL` conjunct removed:
`h.home_latitude IS NOT NULL AND w.work_latitude IS NOT NULL`. -/
def keepRowNoUid (r : OutRow) : Bool :=
  r.home_latitude.isSome && r.work_latitude.isSome

/-- The whole query with the reduced `WHERE` clause `keepRowNoUid` in
place of `keepRow`. -/
def queryNoUid (t : List SourceRow) : List OutRow :=
  ((((leftJoin (home_locations t) (work_locations t)).filter
      keepRowNoUid).insertionSort rowLeP).take 1000)

/-- Concrete table for the first spec scenario: one home row and one
matching work row for `(uid 1, year 2019)`. -/
def tblPair : List SourceRow :=
  [⟨some 1, some 2019, some 10, some 20, some "H"⟩,
   ⟨some 1, some 2019, some 11, some 21, some "W"⟩]

/-- The single output row produced from `tblPair`. -/
def rowPair : OutRow :=
  ⟨some 1, some 10, some 20, some 11, some 21, some 2019⟩

/-- Concrete table whose home row has a null `cluster_longitude` but a
matching work row: its output row has a null `home_longitude`. -/
def tblNullHomeLon : List SourceRow :=
  [⟨some 1, some 2019, some 1, none, some "H"⟩,
   ⟨some 1, some 2019, some 2, some 2, some "W"⟩]

/-- Concrete table whose matching work row has a null
`cluster_longitude`: its output row has a null `work_longitude`. -/
def tblNullWorkLon : List SourceRow :=
  [⟨some 1, some 2019, some 1, some 1, some "H"⟩,
   ⟨some 1, some 2019, some 2, none, some "W"⟩]

/-- Concrete table with two distinct home rows sharing `(uid, year)`:
`(uid, year)` is not a key of `home_locations`. -/
def tblDupKey : List SourceRow :=
  [⟨some 1, some 2019, some 1, some 1, some "H"⟩,
   ⟨some 1, some 2019, some 2, some 2, some "H"⟩]

/-! ### Basic facts about the embedded operations -/

lemma sqlEq_eq {a b : Option Int} (h : sqlEq a b = true) : a = b ∧ a.isSome = true := by
  cases a <;> cases b <;> simp_all [sqlEq]

lemma keepRow_padLeft (h : HomeRow) : keepRow (padLeft h) = false := by
  simp [keepRow, padLeft]

lemma leftJoin_cases {hs : List HomeRow} {ws : List WorkRow} {r : OutRow}
    (hr : r ∈ leftJoin hs ws) :
    (∃ h ∈ hs, r = padLeft h) ∨
      ∃ h ∈ hs, ∃ w ∈ ws, joinCond h w = true ∧ r = combine h w := by
  simp only [leftJoin, List.mem_flatMap] at hr
  obtain ⟨h, hh, hr⟩ := hr
  split at hr
  · exact Or.inl ⟨h, hh, by simpa using hr⟩
  · obtain ⟨w, hw, rfl⟩ := List.mem_map.1 hr
    obtain ⟨hwws, hcond⟩ := List.mem_filter.1 hw
    exact Or.inr ⟨h, hh, w, hwws, hcond, rfl⟩

lemma mem_surviving {t : List SourceRow} {r : OutRow} (hr : r ∈ surviving t) :
    ∃ h ∈ home_locations t, ∃ w ∈ work_locations t, joinCond h w = true ∧ r = combine h w := by
  obtain ⟨hlj, hkeep⟩ := List.mem_filter.1 hr
  rcases leftJoin_cases hlj with ⟨h, _, rfl⟩ | hres
  · rw [keepRow_padLeft] at hkeep
    cases hkeep
  · exact hres

lemma mem_surviving_of_mem_query {t : List SourceRow} {r : OutRow} (hr : r ∈ query t) :
    r ∈ surviving t :=
  (List.mem_insertionSort rowLeP).1 (List.mem_of_mem_take hr)

/-! ### The `(uid, year)` ordering is total and transitive -/

lemma optLt_trichot (a b : Option Int) : optLt a b = true ∨ a = b ∨ optLt b a = true := by
  rcases a with _ | x <;> rcases b with _ | y <;> simp [optLt]
  omega

lemma optLt_asymm {a b : Option Int} (h1 : optLt a b = true) (h2 : optLt b a = true) :
    False := by
  rcases a with _ | x <;> rcases b with _ | y <;> simp_all [optLt]
  omega

lemma optLt_irrefl (a : Option Int) : optLt a a = false := by
  rcases a with _ | x <;> simp [optLt]

lemma optLt_trans {a b c : Option Int} (h1 : optLt a b = true) (h2 : optLt b c = true) :
    optLt a c = true := by
  rcases a with _ | x <;> rcases b with _ | y <;> rcases c with _ | z <;> simp_all [optLt]
  omega

lemma keyLt_iff {a b : OutRow} :
    keyLt a b = true ↔
      optLt a.uid b.uid = true ∨ (a.uid = b.uid ∧ optLt a.year b.year = true) := by
  simp [keyLt]

lemma keyLt_trichot (a b : OutRow) :
    keyLt a b = true ∨ (a.uid = b.uid ∧ a.year = b.year) ∨ keyLt b a = true := by
  rcases optLt_trichot a.uid b.uid with h | h | h
  · exact Or.inl (keyLt_iff.2 (Or.inl h))
  · rcases optLt_trichot a.year b.year with h2 | h2 | h2
    · exact Or.inl (keyLt_iff.2 (Or.inr ⟨h, h2⟩))
    · exact Or.inr (Or.inl ⟨h, h2⟩)
    · exact Or.inr (Or.inr (keyLt_iff.2 (Or.inr ⟨h.symm, h2⟩)))
  · exact Or.inr (Or.inr (keyLt_iff.2 (Or.inl h)))

lemma keyLt_trans {a b c : OutRow} (h1 : keyLt a b = true) (h2 : keyLt b c = true) :
    keyLt a c = true := by
  rw [keyLt_iff] at h1 h2 ⊢
  rcases h1 with h1 | ⟨e1, y1⟩ <;> rcases h2 with h2 | ⟨e2, y2⟩
  · exact Or.inl (optLt_trans h1 h2)
  · exact Or.inl (by rw [← e2]; exact h1)
  · exact Or.inl (by rw [e1]; exact h2)
  · exact Or.inr ⟨e1.trans e2, optLt_trans y1 y2⟩

lemma keyLt_asymm {a b : OutRow} (h1 : keyLt a b = true) (h2 : keyLt b a = true) :
    False := by
  rw [keyLt_iff] at h1 h2
  rcases h1 with h1 | ⟨e1, y1⟩ <;> rcases h2 with h2 | ⟨e2, y2⟩
  · exact optLt_asymm h1 h2
  · rw [e2] at h1
    simp [optLt_irrefl] at h1
  · rw [e1] at h2
    simp [optLt_irrefl] at h2
  · exact optLt_asymm y1 y2

lemma keyLt_congr_left {a b c : OutRow} (eu : a.uid = b.uid) (ey : a.year = b.year) :
    keyLt c a = keyLt c b := by
  simp [keyLt, eu, ey]

lemma rowLe_iff {a b : OutRow} : rowLeP a b ↔ keyLt b a = false := by
  simp [rowLeP, rowLe]

lemma rowLeP_total : ∀ a b : OutRow, rowLeP a b ∨ rowLeP b a := by
  intro a b
  cases hba : keyLt b a with
  | false => exact Or.inl (rowLe_iff.2 hba)
  | true =>
    refine Or.inr (rowLe_iff.2 ?_)
    cases hab : keyLt a b with
    | false => rfl
    | true => exact (keyLt_asymm hab hba).elim

lemma rowLeP_trans : ∀ a b c : OutRow, rowLeP a b → rowLeP b c → rowLeP a c := by
  intro a b c hab hbc
  rw [rowLe_iff] at hab hbc ⊢
  cases hca : keyLt c a with
  | false => rfl
  | true =>
    exfalso
    rcases keyLt_trichot a b with h | ⟨eu, ey⟩ | h
    · have := keyLt_trans hca h
      simp [hbc] at this
    · rw [keyLt_congr_left eu ey, hbc] at hca
      cases hca
    · simp [hab] at h

lemma pairwise_sortedRows (t : List SourceRow) : (sortedRows t).Pairwise rowLeP := by
  haveI : IsTotal OutRow rowLeP := ⟨rowLeP_total⟩
  haveI : IsTrans OutRow rowLeP := ⟨fun a b c => rowLeP_trans a b c⟩
  exact List.sorted_insertionSort rowLeP (surviving t)

/-! ### The claims -/

/-- C1: every `(uid, year)` pair of an output row of the query appears
in `home_locations` and in `work_locations` with the same uid and
year; in particular a home row with no matching work row produces no
output row, despite the join being a left outer join. -/
theorem query_pair_in_home_and_work (t : List SourceRow) (r : OutRow) (hr : r ∈ query t) :
    (∃ h ∈ home_locations t, h.uid = r.uid ∧ h.year = r.year) ∧
      ∃ w ∈ work_locations t, w.uid = r.uid ∧ w.year = r.year := by
  obtain ⟨h, hh, w, hw, hc, rfl⟩ := mem_surviving (mem_surviving_of_mem_query hr)
  simp only [joinCond, Bool.and_eq_true] at hc
  have hu := (sqlEq_eq hc.1).1
  have hy := (sqlEq_eq hc.2).1
  exact ⟨⟨h, hh, rfl, rfl⟩, ⟨w, hw, hu.symm, hy.symm⟩⟩

/-- Witness for C1 on the first spec scenario. -/
theorem query_pair_in_home_and_work_witness :
    (∃ h ∈ home_locations tblPair, h.uid = rowPair.uid ∧ h.year = rowPair.year) ∧
      ∃ w ∈ work_locations tblPair, w.uid = rowPair.uid ∧ w.year = rowPair.year :=
  query_pair_in_home_and_work tblPair rowPair (by decide)

/-- C2 counterexample: the `WHERE` clause never constrains
`home_longitude`, so an output row can have a null `home_longitude`. -/
theorem query_home_longitude_can_be_null :
    ∃ r ∈ query tblNullHomeLon, r.home_longitude = none := by decide

/-- C2 (amended): every output row of the query has non-null `uid`,
`home_latitude` and `work_latitude` (but not necessarily non-null
`home_longitude`). -/
theorem query_filter_fields_isSome (t : List SourceRow) (r : OutRow) (hr : r ∈ query t) :
    r.uid.isSome = true ∧ r.home_latitude.isSome = true ∧ r.work_latitude.isSome = true := by
  have hs : r ∈ surviving t := mem_surviving_of_mem_query hr
  have hk := (List.mem_filter.1 hs).2
  simpa [keepRow, Bool.and_eq_true, and_assoc] using hk

/-- Witness for the amended C2 on the first spec scenario. -/
theorem query_filter_fields_isSome_witness :
    rowPair.uid.isSome = true ∧ rowPair.home_latitude.isSome = true ∧
      rowPair.work_latitude.isSome = true :=
  query_filter_fields_isSome tblPair rowPair (by decide)

/-- C3 counterexample: two distinct rows of `home_locations` can share
the same `(uid, year)` pair, because `SELECT DISTINCT` de-duplicates
full tuples, not `(uid, year)` pairs. -/
theorem home_locations_uid_year_not_key :
    ∃ r ∈ home_locations tblDupKey, ∃ s ∈ home_locations tblDupKey,
      r.uid = s.uid ∧ r.year = s.year ∧ r ≠ s := by decide

/-- C3 (amended): each of `home_locations` and `work_locations`
contains no duplicate rows — the full tuple, not the `(uid, year)`
pair, is a key. -/
theorem home_work_locations_nodup (t : List SourceRow) :
    (home_locations t).Nodup ∧ (work_locations t).Nodup :=
  ⟨List.nodup_dedup _, List.nodup_dedup _⟩

/-- C4: `home_locations` is exactly the de-duplicated projection of
the source rows whose `location_type` is `'H'`, and `work_locations`
the analogue for `'W'`. -/
theorem cte_membership (t : List SourceRow) :
    (∀ r : HomeRow, r ∈ home_locations t ↔
        ∃ s ∈ t, s.location_type = some "H" ∧ r = homeProj s) ∧
      (∀ r : WorkRow, r ∈ work_locations t ↔
        ∃ s ∈ t, s.location_type = some "W" ∧ r = workProj s) ∧
      (home_locations t).Nodup ∧ (work_locations t).Nodup := by
  refine ⟨fun r => ?_, fun r => ?_, List.nodup_dedup _, List.nodup_dedup _⟩ <;>
    simp [home_locations, work_locations, List.mem_dedup, List.mem_filter, eq_comm,
      and_assoc]

/-- C5: every output row of the query, read as an ordered association
list of cells, carries exactly the columns
`[uid, home_latitude, home_longitude, work_latitude, work_longitude, year]`,
in that order. -/
theorem query_output_schema (t : List SourceRow) (r : OutRow) (_hr : r ∈ query t) :
    r.toCells.map Prod.fst = outputColumns :=
  rfl

/-- Witness for C5 on the first spec scenario. -/
theorem query_output_schema_witness :
    rowPair.toCells.map Prod.fst = outputColumns :=
  query_output_schema tblPair rowPair (by decide)

/-- C6: the output of the query is sorted by `(uid, year)` ascending:
no output row precedes an earlier row with a strictly larger `(uid,
year)` sort key. -/
theorem query_sorted_by_uid_year (t : List SourceRow) :
    (query t).Pairwise (fun a b => keyLt b a = false) := by
  have hp2 : (sortedRows t).Pairwise (fun a b : OutRow => keyLt b a = false) :=
    (pairwise_sortedRows t).imp (fun hab => rowLe_iff.1 hab)
  exact List.Pairwise.sublist (List.take_sublist 1000 (sortedRows t)) hp2

/-- C7: the query returns at most 1000 rows, and they are exactly the
first rows of the `(uid, year)`-sorted surviving set. -/
theorem query_length_le_1000 (t : List SourceRow) :
    (query t).length ≤ 1000 ∧ query t = (sortedRows t).take 1000 :=
  ⟨List.length_take_le 1000 (sortedRows t), rfl⟩

/-- C8: the left outer join followed by the `WHERE` filter yields
exactly the same rows as the inner join followed by the same filter:
the non-null `work_latitude` condition eliminates every null-padded
unmatched row. -/
theorem surviving_eq_survivingInner (t : List SourceRow) :
    surviving t = survivingInner t := by
  show (leftJoin (home_locations t) (work_locations t)).filter keepRow =
    (innerJoin (home_locations t) (work_locations t)).filter keepRow
  generalize work_locations t = ws
  induction home_locations t with
  | nil => rfl
  | cons h hs ih =>
    have hstep : leftJoin (h :: hs) ws =
        (if (ws.filter (fun w => joinCond h w)).isEmpty then [padLeft h]
          else (ws.filter (fun w => joinCond h w)).map (fun w => combine h w)) ++
          leftJoin hs ws := by
      simp [leftJoin]
    have istep : innerJoin (h :: hs) ws =
        ((ws.filter (fun w => joinCond h w)).map (fun w => combine h w)) ++
          innerJoin hs ws := by
      simp [innerJoin]
    rw [hstep, istep, List.filter_append, List.filter_append, ih]
    congr 1
    cases hms : ws.filter (fun w => joinCond h w) with
    | nil => simp [keepRow_padLeft]
    | cons w ms => simp

/-- C9: the `WHERE` clause never constrains `work_longitude`, so a
matched work row with a non-null latitude and a null longitude
survives: some input produces an output row with null
`work_longitude`. -/
theorem query_work_longitude_can_be_null :
    ∃ r ∈ query tblNullWorkLon, r.work_longitude = none := by decide

/-- C10: the `h.uid IS NOT NULL` conjunct of the `WHERE` clause is
redundant: the query with it and the query without it produce equal
outputs, because a home row with a null uid never matches any work row
and is therefore already removed by the `w.work_latitude IS NOT NULL`
condition. -/
theorem query_uid_filter_redundant (t : List SourceRow) :
    query t = queryNoUid t := by
  have hfil : (leftJoin (home_locations t) (work_locations t)).filter keepRow =
      (leftJoin (home_locations t) (work_locations t)).filter keepRowNoUid := by
    refine List.filter_congr fun x hx => ?_
    rcases leftJoin_cases hx with ⟨h, _, rfl⟩ | ⟨h, _, w, _, hc, rfl⟩
    · simp [keepRow, keepRowNoUid, padLeft]
    · simp only [joinCond, Bool.and_eq_true] at hc
      have hu : (combine h w).uid.isSome = true := (sqlEq_eq hc.1).2
      simp [keepRow, keepRowNoUid, hu]
  show ((surviving t).insertionSort rowLeP).take 1000 = queryNoUid t
  rw [queryNoUid, show surviving t =
    (leftJoin (home_locations t) (work_locations t)).filter keepRowNoUid from hfil]

end GcLbs
